import Mathlib

/-!
Verification of the vehicle motion model of the DrivingGame repository.

The model is a shallow embedding of the basic-physics (kinematic fallback)
path of the Vehicle class in src/project/final/js/lighting.js, together with
Environment.getHeightAtPosition in src/project/final/js/ui.js.  JavaScript
numbers are modelled as real numbers.  Engine-owned values (ray pick results,
wheel raycast hit points) enter the model as per-tick inputs, and engine-owned
orientation operations (quaternion construction and slerp) as abstract
operation records, since the spec treats the 3D engine as an external
collaborator.
-/

set_option autoImplicit false

namespace DrivingGame

/-- The ControlVector: the this.controls object of the Vehicle constructor
(lighting.js lines 860-868).  The cameraToggle field is a camera concern and
plays no role in the motion model. -/
structure Controls where
  forward : Bool
  backward : Bool
  left : Bool
  right : Bool
  brake : Bool
  handbrake : Bool
  deriving DecidableEq, Repr

/-- The all-false control vector. -/
def Controls.allFalse : Controls :=
  ⟨false, false, false, false, false, false⟩

noncomputable section

/-- this.maxSpeed = 80 (lighting.js line 823). -/
def maxSpeed : ℝ := 80

/-- this.acceleration = 0.5 (line 824). -/
def acceleration : ℝ := 0.5

/-- this.deceleration = 0.2 (line 825). -/
def deceleration : ℝ := 0.2

/-- this.brakeForce = 1.5 (line 826). -/
def brakeForce : ℝ := 1.5

/-- this.turnSpeed = 0.05 (line 827). -/
def turnSpeed : ℝ := 0.05

/-- this.wheelBase = 4 (line 828). -/
def wheelBase : ℝ := 4

/-- this.wheelRadius = 0.7 (line 830). -/
def wheelRadius : ℝ := 0.7

/-- this.maxSteeringAngle = Math.PI / 6 (line 832). -/
def maxSteeringAngle : ℝ := Real.pi / 6

/-- A 3D vector (BABYLON.Vector3), by components. -/
structure V3 where
  x : ℝ
  y : ℝ
  z : ℝ

/-- A quaternion (BABYLON.Quaternion), by raw components. -/
structure Quat where
  qx : ℝ
  qy : ℝ
  qz : ℝ
  qw : ℝ

/-- The vehicle state of the kinematic fallback path.  pos and meshRot are
this.mesh.position and this.mesh.rotation, rotQuat is
this.mesh.rotationQuaternion (null until adjustToTerrain first builds one),
rotation is the internal heading scalar this.rotation that
updateBasicPhysics integrates, and speed, steeringAngle and controls are the
corresponding Vehicle fields. -/
structure VehicleState where
  pos : V3
  meshRot : V3
  rotQuat : Option Quat
  rotation : ℝ
  speed : ℝ
  steeringAngle : ℝ
  controls : Controls

/-- The spawn state: the Vehicle constructor zeroes speed, steeringAngle and
rotation, creates the mesh at the origin with zero Euler rotation and no
rotation quaternion, and starts with every control false. -/
def initialState : VehicleState :=
  { pos := ⟨0, 0, 0⟩
    meshRot := ⟨0, 0, 0⟩
    rotQuat := none
    rotation := 0
    speed := 0
    steeringAngle := 0
    controls := Controls.allFalse }

/-- First statement of Vehicle.updateSteering (lighting.js lines 1554-1560):
when neither left nor right is held, the stored angle relaxes toward 0 by
turnSpeed / 2 without crossing it. -/
def steerCenter (c : Controls) (a : ℝ) : ℝ :=
  if (!c.left && !c.right) then
    if a > 0 then max 0 (a - turnSpeed / 2)
    else if a < 0 then min 0 (a + turnSpeed / 2)
    else a
  else a

/-- Second statement of Vehicle.updateSteering (lines 1563-1565): a held
left input subtracts turnSpeed, clamped at -maxSteeringAngle. -/
def steerLeft (c : Controls) (a : ℝ) : ℝ :=
  if c.left then max (-maxSteeringAngle) (a - turnSpeed) else a

/-- Third statement of Vehicle.updateSteering (lines 1567-1569): a held
right input adds turnSpeed, clamped at maxSteeringAngle.  This is an
independent if, not an else branch, as in the source. -/
def steerRight (c : Controls) (a : ℝ) : ℝ :=
  if c.right then min maxSteeringAngle (a + turnSpeed) else a

/-- The full steering-angle update of Vehicle.updateSteering (lighting.js
lines 1552-1569): the three statements above run in sequence on
this.steeringAngle. -/
def steerStep (c : Controls) (a : ℝ) : ℝ :=
  steerRight c (steerLeft c (steerCenter c a))

/-- The speed factor of Vehicle.updateSteering (line 1572):
Math.min(1, 1 - (Math.abs(speed) / maxSpeed) * 0.5). -/
def speedFactor (v : ℝ) : ℝ :=
  min 1 (1 - |v| / maxSpeed * 0.5)

/-- The effective steering angle of Vehicle.updateSteering (line 1573): the
stored angle scaled by the speed factor.  In the source it is applied to the
front wheel meshes and wheel bodies only. -/
def effectiveSteeringAngle (v a : ℝ) : ℝ :=
  a * speedFactor v

/-- Modelled from the spec (section 4.3), for comparison with
effectiveSteeringAngle: the stored angle scaled by
max(0, 1 - 0.5 * |speed| / maxSpeed). -/
def specEffectiveSteeringAngle (v a : ℝ) : ℝ :=
  a * max 0 (1 - 0.5 * (|v| / maxSpeed))

/-- The speed update of Vehicle.updateSpeed (lighting.js lines 1591-1638):
brake first (early return), then forward with a diminishing acceleration
factor, then backward clamped at -maxSpeed / 2, otherwise natural
deceleration toward 0.  The handbrake branch and the wheel-body branches only
touch engine wheel bodies, never this.speed. -/
def speedStep (c : Controls) (v : ℝ) : ℝ :=
  if c.brake then
    if v > 0 then max 0 (v - brakeForce)
    else if v < 0 then min 0 (v + brakeForce)
    else v
  else if c.forward then
    min maxSpeed (v + acceleration * (1 - min 0.7 (|v| / maxSpeed)))
  else if c.backward then
    max (-(maxSpeed / 2)) (v - acceleration)
  else
    if v > 0 then max 0 (v - deceleration)
    else if v < 0 then min 0 (v + deceleration)
    else v

/-- BABYLON.Vector3.Lerp. -/
def lerpV (p q : V3) (t : ℝ) : V3 :=
  ⟨p.x + (q.x - p.x) * t, p.y + (q.y - p.y) * t, p.z + (q.z - p.z) * t⟩

/-- Componentwise vector subtraction (BABYLON subtract). -/
def subV (p q : V3) : V3 :=
  ⟨p.x - q.x, p.y - q.y, p.z - q.z⟩

/-- Euclidean length of a vector. -/
def normV (p : V3) : ℝ :=
  Real.sqrt (p.x ^ 2 + p.y ^ 2 + p.z ^ 2)

/-- BABYLON normalize: divide by the length. -/
def normalizeV (p : V3) : V3 :=
  ⟨p.x / normV p, p.y / normV p, p.z / normV p⟩

/-- BABYLON.Vector3.Cross. -/
def crossV (a b : V3) : V3 :=
  ⟨a.y * b.z - a.z * b.y, a.z * b.x - a.x * b.z, a.x * b.y - a.y * b.x⟩

/-- The ground-plane axes computed by Vehicle.adjustToTerrain (lighting.js
lines 1810-1839) from the four wheel hit points: midpoints of the
front/rear/left/right wheel pairs, a forward vector from rear minus front, a
right vector from left minus right, and their cross product as up vector.
Returned in the argument order of BABYLON.Matrix.FromXYZAxes:
(right, up, forward). -/
def terrainAxes (h0 h1 h2 h3 : V3) : V3 × V3 × V3 :=
  let frontMidpoint := lerpV h0 h1 0.5
  let rearMidpoint := lerpV h2 h3 0.5
  let leftMidpoint := lerpV h0 h2 0.5
  let rightMidpoint := lerpV h1 h3 0.5
  let forwardVector := normalizeV (subV rearMidpoint frontMidpoint)
  let rightVector := normalizeV (subV leftMidpoint rightMidpoint)
  let upVector := normalizeV (crossV forwardVector rightVector)
  (rightVector, upVector, forwardVector)

/-- Engine-owned orientation operations, treated as external collaborators:
quatFromAxes stands for BABYLON.Matrix.FromXYZAxes followed by
BABYLON.Quaternion.FromRotationMatrix, and slerp for
BABYLON.Quaternion.SlerpToRef. -/
structure EngineOps where
  quatFromAxes : V3 → V3 → V3 → Quat
  slerp : Quat → Quat → ℝ → Quat

/-- Per-tick inputs owned by the engine: whether window.environment exists,
the pick result of the downward ray cast by Environment.getHeightAtPosition
at the vehicle position (some y means the ray hit ground at height y, none
means no ground was found), and the four wheel raycast hit points
(wheelRaycasts[i].lastHitPoint) when all four are present. -/
structure EngineInputs where
  envPresent : Bool
  pick : Option ℝ
  wheelHits : Option (V3 × V3 × V3 × V3)

/-- Environment.getHeightAtPosition (ui.js lines 1279-1294): the height of
the picked point when the downward ray hits, and the default height 0 when
no ground is found.  It always returns a number, never null. -/
def getHeightAtPosition (pick : Option ℝ) : ℝ :=
  match pick with
  | some y => y
  | none => 0

/-- Vehicle.adjustToTerrain (lighting.js lines 1787-1862): when
window.environment exists, query the height under the vehicle and, when the
returned height is not null, snap the elevation to height + wheelRadius and,
when all four wheel raycasts have hit points, build a target orientation
from the ground-plane axes and either install it (no quaternion yet) or
slerp the current quaternion toward it by 0.1.  The JS local height has
static type number-or-null; getHeightAtPosition always returns a number, so
the height !== null guard is modelled by a match on an Option that is always
some. -/
def adjustToTerrain (ops : EngineOps) (inp : EngineInputs) (s : VehicleState) :
    VehicleState :=
  if inp.envPresent then
    let height : Option ℝ := some (getHeightAtPosition inp.pick)
    match height with
    | some h =>
      let s' := { s with pos := ⟨s.pos.x, h + wheelRadius, s.pos.z⟩ }
      match inp.wheelHits with
      | some (h0, h1, h2, h3) =>
        let axes := terrainAxes h0 h1 h2 h3
        let target := ops.quatFromAxes axes.1 axes.2.1 axes.2.2
        match s'.rotQuat with
        | none => { s' with rotQuat := some target }
        | some q => { s' with rotQuat := some (ops.slerp q target 0.1) }
      | none => s'
    | none => s
  else s

/-- Vehicle.updateSteering as a state update: only the stored steeringAngle
changes; the effective angle is applied to wheel meshes and wheel bodies,
which are engine visuals outside the motion state. -/
def updateSteering (s : VehicleState) : VehicleState :=
  { s with steeringAngle := steerStep s.controls s.steeringAngle }

/-- Vehicle.updateSpeed as a state update. -/
def updateSpeed (s : VehicleState) : VehicleState :=
  { s with speed := speedStep s.controls s.speed }

/-- Vehicle.updateBasicPhysics (lighting.js lines 1759-1784): when the speed
is nonzero, compute the turn radius from the stored steering angle with the
0.0001 epsilon, integrate the heading, advance the mesh position along the
new heading, copy the heading into mesh.rotation.y, and adjust to the
terrain.  When the speed is zero nothing happens. -/
def updateBasicPhysics (ops : EngineOps) (inp : EngineInputs)
    (s : VehicleState) : VehicleState :=
  if s.speed ≠ 0 then
    let turnRadius := wheelBase / Real.sin (|s.steeringAngle| + 0.0001)
    let angularVelocity := s.speed / turnRadius * Real.sign s.steeringAngle
    let rot' := s.rotation + angularVelocity
    let moveX := Real.sin rot' * s.speed
    let moveZ := Real.cos rot' * s.speed
    let s' := { s with
      rotation := rot'
      pos := ⟨s.pos.x + moveX, s.pos.y, s.pos.z + moveZ⟩
      meshRot := ⟨s.meshRot.x, rot', s.meshRot.z⟩ }
    adjustToTerrain ops inp s'
  else s

/-- Modelled from the spec (section 4.4 and claim C5), for comparison with
updateBasicPhysics: the same kinematic step but driven by the effective
(speed-scaled) steering angle instead of the stored one. -/
def specKinematicStep (ops : EngineOps) (inp : EngineInputs)
    (s : VehicleState) : VehicleState :=
  if s.speed ≠ 0 then
    let eff := effectiveSteeringAngle s.speed s.steeringAngle
    let turnRadius := wheelBase / Real.sin (|eff| + 0.0001)
    let angularVelocity := s.speed / turnRadius * Real.sign eff
    let rot' := s.rotation + angularVelocity
    let moveX := Real.sin rot' * s.speed
    let moveZ := Real.cos rot' * s.speed
    let s' := { s with
      rotation := rot'
      pos := ⟨s.pos.x + moveX, s.pos.y, s.pos.z + moveZ⟩
      meshRot := ⟨s.meshRot.x, rot', s.meshRot.z⟩ }
    adjustToTerrain ops inp s'
  else s

/-- Vehicle.reset (lighting.js lines 1875-1891): zero the mesh position and
Euler rotation, the speed and the steering angle, and clear every control.
The internal heading this.rotation and mesh.rotationQuaternion are not
touched, exactly as in the source. -/
def reset (s : VehicleState) : VehicleState :=
  { s with
    pos := ⟨0, 0, 0⟩
    meshRot := ⟨0, 0, 0⟩
    speed := 0
    steeringAngle := 0
    controls := Controls.allFalse }

/-- One simulation tick of the fallback path, as Vehicle.update (lighting.js
lines 1529-1549) runs it when no chassis body exists: install the control
vector the key handlers have accumulated, then updateSteering, updateSpeed
and updateBasicPhysics in order.  The raycast, suspension and wheel updates
in between only touch engine wheel objects. -/
def tick (ops : EngineOps) (inp : EngineInputs) (c : Controls)
    (s : VehicleState) : VehicleState :=
  updateBasicPhysics ops inp (updateSpeed (updateSteering { s with controls := c }))

/-- States reachable from spawn by any sequence of ticks, with any control
vector and any engine inputs at each tick. -/
inductive Reachable : VehicleState → Prop
  | init : Reachable initialState
  | step (s : VehicleState) (hs : Reachable s) (ops : EngineOps)
      (inp : EngineInputs) (c : Controls) : Reachable (tick ops inp c s)

/-- A trivial instantiation of the engine orientation operations, used to
evaluate the model at concrete inputs. -/
def trivOps : EngineOps :=
  ⟨fun _ _ _ => ⟨0, 0, 0, 1⟩, fun q _ _ => q⟩

/-- Engine inputs for a tick on which window.environment is absent. -/
def noEnv : EngineInputs :=
  ⟨false, none, none⟩

/-- Engine inputs for a tick on which window.environment exists but the
downward height ray finds no ground. -/
def envNoGround : EngineInputs :=
  ⟨true, none, none⟩

/-- Controls with forward and right held, as when the w and d keys are
down. -/
def ctrlForwardRight : Controls :=
  ⟨true, false, false, true, false, false⟩

/-- Controls with only forward held. -/
def ctrlForward : Controls :=
  ⟨true, false, false, false, false, false⟩

/-- A vehicle state at elevation 5, otherwise as at spawn. -/
def highState : VehicleState :=
  { initialState with pos := ⟨0, 5, 0⟩ }

/-- A vehicle state moving at speed 10 with a stored steering angle of 0.2,
otherwise as at spawn. -/
def steeredState : VehicleState :=
  { initialState with speed := 10, steeringAngle := 0.2 }

/-- A vehicle state moving at speed 10 with the steering centered, otherwise
as at spawn. -/
def straightState : VehicleState :=
  { initialState with speed := 10 }

end

/-! Basic facts about the fixed parameters. -/

lemma turnSpeed_pos : (0 : ℝ) < turnSpeed := by
  norm_num [turnSpeed]

lemma maxSteeringAngle_pos : (0 : ℝ) < maxSteeringAngle :=
  div_pos Real.pi_pos (by norm_num)

lemma turnSpeed_le_maxSteeringAngle : turnSpeed ≤ maxSteeringAngle := by
  have h := Real.pi_gt_three
  unfold turnSpeed maxSteeringAngle
  linarith

/-! Projection lemmas: which fields each stage of the tick leaves alone. -/

lemma adjustToTerrain_motion (ops : EngineOps) (inp : EngineInputs)
    (s : VehicleState) :
    (adjustToTerrain ops inp s).speed = s.speed ∧
    (adjustToTerrain ops inp s).steeringAngle = s.steeringAngle ∧
    (adjustToTerrain ops inp s).rotation = s.rotation ∧
    (adjustToTerrain ops inp s).controls = s.controls ∧
    (adjustToTerrain ops inp s).pos.x = s.pos.x ∧
    (adjustToTerrain ops inp s).pos.z = s.pos.z ∧
    (adjustToTerrain ops inp s).meshRot = s.meshRot := by
  unfold adjustToTerrain
  rcases inp with ⟨ep, pick, wh⟩
  cases ep
  · simp
  · rcases wh with _ | ⟨h0, h1, h2, h3⟩
    · simp
    · rcases s with ⟨pos, mr, rq, rot, sp, sa, cs⟩
      rcases rq with _ | q <;> simp

lemma updateBasicPhysics_speed (ops : EngineOps) (inp : EngineInputs)
    (s : VehicleState) :
    (updateBasicPhysics ops inp s).speed = s.speed := by
  unfold updateBasicPhysics
  split_ifs with h
  · exact (adjustToTerrain_motion ops inp _).1
  · rfl

lemma updateBasicPhysics_steeringAngle (ops : EngineOps) (inp : EngineInputs)
    (s : VehicleState) :
    (updateBasicPhysics ops inp s).steeringAngle = s.steeringAngle := by
  unfold updateBasicPhysics
  split_ifs with h
  · exact (adjustToTerrain_motion ops inp _).2.1
  · rfl

lemma updateBasicPhysics_controls (ops : EngineOps) (inp : EngineInputs)
    (s : VehicleState) :
    (updateBasicPhysics ops inp s).controls = s.controls := by
  unfold updateBasicPhysics
  split_ifs with h
  · exact (adjustToTerrain_motion ops inp _).2.2.2.1
  · rfl

lemma tick_speed (ops : EngineOps) (inp : EngineInputs) (c : Controls)
    (s : VehicleState) :
    (tick ops inp c s).speed = speedStep c s.speed := by
  unfold tick
  rw [updateBasicPhysics_speed]
  rfl

lemma tick_steeringAngle (ops : EngineOps) (inp : EngineInputs) (c : Controls)
    (s : VehicleState) :
    (tick ops inp c s).steeringAngle = steerStep c s.steeringAngle := by
  unfold tick
  rw [updateBasicPhysics_steeringAngle]
  rfl

/-! Bounds for the speed update. -/

lemma speedStep_bounds (c : Controls) (v : ℝ) (h1 : -(maxSpeed / 2) ≤ v)
    (h2 : v ≤ maxSpeed) :
    -(maxSpeed / 2) ≤ speedStep c v ∧ speedStep c v ≤ maxSpeed := by
  have hmin : min (0.7 : ℝ) (|v| / maxSpeed) ≤ 0.7 := min_le_left _ _
  unfold speedStep maxSpeed acceleration deceleration brakeForce at *
  split_ifs with hb hv1 hv2 hf hbk hv3 hv4
  · exact ⟨le_trans (by norm_num) (le_max_left _ _), max_le (by norm_num) (by linarith)⟩
  · exact ⟨le_min (by norm_num) (by linarith), le_trans (min_le_left _ _) (by norm_num)⟩
  · exact ⟨h1, h2⟩
  · exact ⟨le_min (by norm_num) (by nlinarith), min_le_left _ _⟩
  · exact ⟨le_max_left _ _, max_le (by norm_num) (by linarith)⟩
  · exact ⟨le_trans (by norm_num) (le_max_left _ _), max_le (by norm_num) (by linarith)⟩
  · exact ⟨le_min (by norm_num) (by linarith), le_trans (min_le_left _ _) (by norm_num)⟩
  · exact ⟨h1, h2⟩

/-! Bounds and behavior of the steering update. -/

lemma steerCenter_bounds (c : Controls) (a : ℝ)
    (h : |a| ≤ maxSteeringAngle) : |steerCenter c a| ≤ maxSteeringAngle := by
  have hM : 0 < maxSteeringAngle := maxSteeringAngle_pos
  have ht : 0 < turnSpeed := turnSpeed_pos
  rw [abs_le] at h
  obtain ⟨hl, hr⟩ := h
  rw [abs_le]
  unfold steerCenter
  split_ifs with hc ha1 ha2
  · exact ⟨le_trans (by linarith) (le_max_left _ _), max_le (by linarith) (by linarith)⟩
  · exact ⟨le_min (by linarith) (by linarith), le_trans (min_le_left _ _) (by linarith)⟩
  · exact ⟨hl, hr⟩
  · exact ⟨hl, hr⟩

lemma steerLeft_bounds (c : Controls) (a : ℝ)
    (h : |a| ≤ maxSteeringAngle) : |steerLeft c a| ≤ maxSteeringAngle := by
  have ht : 0 < turnSpeed := turnSpeed_pos
  rw [abs_le] at h
  obtain ⟨hl, hr⟩ := h
  rw [abs_le]
  unfold steerLeft
  split_ifs with hc
  · exact ⟨le_max_left _ _, max_le (by linarith [maxSteeringAngle_pos]) (by linarith)⟩
  · exact ⟨hl, hr⟩

lemma steerRight_bounds (c : Controls) (a : ℝ)
    (h : |a| ≤ maxSteeringAngle) : |steerRight c a| ≤ maxSteeringAngle := by
  have ht : 0 < turnSpeed := turnSpeed_pos
  rw [abs_le] at h
  obtain ⟨hl, hr⟩ := h
  rw [abs_le]
  unfold steerRight
  split_ifs with hc
  · exact ⟨le_min (by linarith [maxSteeringAngle_pos]) (by linarith), min_le_left _ _⟩
  · exact ⟨hl, hr⟩

lemma steerStep_bound (c : Controls) (a : ℝ)
    (h : |a| ≤ maxSteeringAngle) : |steerStep c a| ≤ maxSteeringAngle :=
  steerRight_bounds _ _ (steerLeft_bounds _ _ (steerCenter_bounds _ _ h))

/-! Reachability invariants. -/

lemma reachable_speed_bounds (s : VehicleState) (hs : Reachable s) :
    -(maxSpeed / 2) ≤ s.speed ∧ s.speed ≤ maxSpeed := by
  induction hs with
  | init =>
      constructor
      · show -(maxSpeed / 2) ≤ 0
        unfold maxSpeed
        norm_num
      · show (0 : ℝ) ≤ maxSpeed
        unfold maxSpeed
        norm_num
  | step s hs ops inp c ih =>
      rw [tick_speed]
      exact speedStep_bounds c s.speed ih.1 ih.2

lemma reachable_steeringAngle_bound (s : VehicleState) (hs : Reachable s) :
    |s.steeringAngle| ≤ maxSteeringAngle := by
  induction hs with
  | init =>
      show |(0 : ℝ)| ≤ maxSteeringAngle
      simp [le_of_lt maxSteeringAngle_pos]
  | step s hs ops inp c ih =>
      rw [tick_steeringAngle]
      exact steerStep_bound c s.steeringAngle ih

/-! Behavior of the steering update with no steering input. -/

lemma steer_relax (c : Controls) (a : ℝ) (hL : c.left = false)
    (hR : c.right = false) :
    |steerStep c a| = max 0 (|a| - turnSpeed / 2) ∧
    (0 ≤ a → 0 ≤ steerStep c a) ∧ (a ≤ 0 → steerStep c a ≤ 0) := by
  have ht : 0 < turnSpeed := turnSpeed_pos
  have hstep : steerStep c a =
      if a > 0 then max 0 (a - turnSpeed / 2)
      else if a < 0 then min 0 (a + turnSpeed / 2)
      else a := by
    unfold steerStep steerRight steerLeft steerCenter
    rw [hL, hR]
    simp
  rw [hstep]
  rcases lt_trichotomy a 0 with ha | ha | ha
  · rw [if_neg (by linarith), if_pos ha]
    refine ⟨?_, fun h0 => absurd (lt_of_le_of_lt h0 ha) (lt_irrefl 0), fun _ => min_le_left _ _⟩
    rcases le_total (a + turnSpeed / 2) 0 with hx | hx
    · rw [min_eq_right hx, abs_of_nonpos hx, abs_of_neg ha,
        max_eq_right (by linarith : (0 : ℝ) ≤ -a - turnSpeed / 2)]
      ring
    · rw [min_eq_left hx, abs_zero, abs_of_neg ha,
        max_eq_left (by linarith : -a - turnSpeed / 2 ≤ 0)]
  · subst ha
    rw [if_neg (lt_irrefl 0), if_neg (lt_irrefl 0)]
    refine ⟨?_, fun _ => le_refl 0, fun _ => le_refl 0⟩
    rw [abs_zero, max_eq_left (by linarith : (0 : ℝ) - turnSpeed / 2 ≤ 0)]
  · rw [if_pos ha]
    refine ⟨?_, fun _ => le_max_left _ _, fun h0 => absurd (lt_of_lt_of_le ha h0) (lt_irrefl 0)⟩
    rw [abs_of_nonneg (le_max_left _ _), abs_of_pos ha]

/-! Behavior of the speed update while coasting (all controls false). -/

lemma speedStep_coast_pos (v : ℝ) (hv : 0 < v) :
    speedStep Controls.allFalse v = max 0 (v - deceleration) := by
  unfold speedStep Controls.allFalse
  simp only [Bool.false_eq_true, if_false]
  rw [if_pos hv]

lemma speedStep_allFalse_zero : speedStep Controls.allFalse 0 = 0 := by
  unfold speedStep Controls.allFalse
  simp

lemma steerStep_allFalse_zero : steerStep Controls.allFalse 0 = 0 := by
  unfold steerStep steerRight steerLeft steerCenter Controls.allFalse
  simp

lemma coast_strict_decrease (v : ℝ) (hv : 0 < v) :
    speedStep Controls.allFalse v < v ∧ 0 ≤ speedStep Controls.allFalse v := by
  rw [speedStep_coast_pos v hv]
  have hd : (0 : ℝ) < deceleration := by norm_num [deceleration]
  exact ⟨max_lt hv (by linarith), le_max_left _ _⟩

lemma coast_iterate (n : ℕ) :
    (speedStep Controls.allFalse)^[n] maxSpeed =
      max 0 (maxSpeed - deceleration * n) := by
  have hd : (0 : ℝ) < deceleration := by norm_num [deceleration]
  have hM : (0 : ℝ) ≤ maxSpeed := by norm_num [maxSpeed]
  induction n with
  | zero =>
      rw [Function.iterate_zero_apply]
      push_cast
      rw [mul_zero, sub_zero, max_eq_right hM]
  | succ n ih =>
      rw [Function.iterate_succ_apply', ih]
      rcases le_or_lt (maxSpeed - deceleration * n) 0 with h | h
      · rw [max_eq_left h, speedStep_allFalse_zero]
        push_cast
        rw [max_eq_left (by
          have hexp : deceleration * ((n : ℝ) + 1) = deceleration * (n : ℝ) + deceleration := by
            ring
          linarith : maxSpeed - deceleration * ((n : ℝ) + 1) ≤ 0)]
      · rw [max_eq_right h.le, speedStep_coast_pos _ h]
        congr 1
        push_cast
        ring

/-! Evaluation of the kinematic step. -/

lemma updateBasicPhysics_rotation (ops : EngineOps) (inp : EngineInputs)
    (s : VehicleState) (h : s.speed ≠ 0) :
    (updateBasicPhysics ops inp s).rotation =
      s.rotation + s.speed / (wheelBase / Real.sin (|s.steeringAngle| + 0.0001)) *
        Real.sign s.steeringAngle := by
  unfold updateBasicPhysics
  rw [if_pos h]
  exact (adjustToTerrain_motion ops inp _).2.2.1

lemma updateBasicPhysics_posx (ops : EngineOps) (inp : EngineInputs)
    (s : VehicleState) (h : s.speed ≠ 0) :
    (updateBasicPhysics ops inp s).pos.x =
      s.pos.x + Real.sin (s.rotation +
        s.speed / (wheelBase / Real.sin (|s.steeringAngle| + 0.0001)) *
          Real.sign s.steeringAngle) * s.speed := by
  unfold updateBasicPhysics
  rw [if_pos h]
  exact (adjustToTerrain_motion ops inp _).2.2.2.2.1

lemma updateBasicPhysics_posz (ops : EngineOps) (inp : EngineInputs)
    (s : VehicleState) (h : s.speed ≠ 0) :
    (updateBasicPhysics ops inp s).pos.z =
      s.pos.z + Real.cos (s.rotation +
        s.speed / (wheelBase / Real.sin (|s.steeringAngle| + 0.0001)) *
          Real.sign s.steeringAngle) * s.speed := by
  unfold updateBasicPhysics
  rw [if_pos h]
  exact (adjustToTerrain_motion ops inp _).2.2.2.2.2.1

lemma specKinematicStep_rotation (ops : EngineOps) (inp : EngineInputs)
    (s : VehicleState) (h : s.speed ≠ 0) :
    (specKinematicStep ops inp s).rotation =
      s.rotation + s.speed /
        (wheelBase / Real.sin (|effectiveSteeringAngle s.speed s.steeringAngle| + 0.0001)) *
        Real.sign (effectiveSteeringAngle s.speed s.steeringAngle) := by
  unfold specKinematicStep
  rw [if_pos h]
  exact (adjustToTerrain_motion ops inp _).2.2.1

/-! Evaluation of one tick from spawn with forward and right held. -/

lemma steerStep_FR : steerStep ctrlForwardRight 0 = 0.05 := by
  have h : steerStep ctrlForwardRight 0 = min maxSteeringAngle turnSpeed := by
    unfold steerStep steerRight steerLeft steerCenter ctrlForwardRight
    simp
  rw [h, min_eq_right turnSpeed_le_maxSteeringAngle]
  rfl

lemma speedStep_F0 : speedStep ctrlForwardRight 0 = 0.5 := by
  have h : speedStep ctrlForwardRight 0 =
      min maxSpeed (0 + acceleration * (1 - min 0.7 (|(0 : ℝ)| / maxSpeed))) := by
    unfold speedStep ctrlForwardRight
    simp
  rw [abs_zero, zero_div, min_eq_right (by norm_num : (0 : ℝ) ≤ 0.7)] at h
  rw [h, min_eq_right (by norm_num [maxSpeed, acceleration] :
    0 + acceleration * (1 - 0) ≤ maxSpeed)]
  norm_num [acceleration]

/-! The claims. -/

/-- C1: every state reachable from spawn by any sequence of ticks with any
control vectors has speed at most maxSpeed and at least -maxSpeed / 2. -/
theorem C1_speed_invariant (s : VehicleState) (hs : Reachable s) :
    s.speed ≤ maxSpeed ∧ -(maxSpeed / 2) ≤ s.speed :=
  ⟨(reachable_speed_bounds s hs).2, (reachable_speed_bounds s hs).1⟩

/-- Witness for C1 at the spawn state. -/
theorem C1_speed_invariant_witness :
    initialState.speed ≤ maxSpeed ∧ -(maxSpeed / 2) ≤ initialState.speed :=
  C1_speed_invariant initialState Reachable.init

/-- C2: every reachable steering angle satisfies |steeringAngle| ≤
maxSteeringAngle, and when neither left nor right is held the angle moves
toward 0 by exactly turnSpeed / 2, clamped at zero, never crossing it. -/
theorem C2_steering_invariant :
    (∀ s : VehicleState, Reachable s → |s.steeringAngle| ≤ maxSteeringAngle) ∧
    (∀ (c : Controls) (a : ℝ), c.left = false → c.right = false →
      |steerStep c a| = max 0 (|a| - turnSpeed / 2) ∧
      (0 ≤ a → 0 ≤ steerStep c a) ∧ (a ≤ 0 → steerStep c a ≤ 0)) :=
  ⟨reachable_steeringAngle_bound, steer_relax⟩

/-- Witness for C2 at the spawn state and at a concrete angle 0.04 with no
steering input. -/
theorem C2_steering_invariant_witness :
    |initialState.steeringAngle| ≤ maxSteeringAngle ∧
    |steerStep Controls.allFalse 0.04| = max 0 (|(0.04 : ℝ)| - turnSpeed / 2) ∧
    (0 ≤ (0.04 : ℝ) → 0 ≤ steerStep Controls.allFalse 0.04) :=
  ⟨C2_steering_invariant.1 initialState Reachable.init,
   (C2_steering_invariant.2 Controls.allFalse 0.04 rfl rfl).1,
   (C2_steering_invariant.2 Controls.allFalse 0.04 rfl rfl).2.1⟩

/-- C3 (code bug): reset() does not return the vehicle exactly to the
initial state.  After one tick from spawn with forward and right held,
reset() zeroes the mesh position, the speed, the steering angle and the
controls, but the internal heading this.rotation that updateBasicPhysics
integrates keeps its nonzero pre-reset value: the source resets
mesh.rotation but never this.rotation, so the next moving tick resumes from
the stale heading. -/
theorem C3_reset_keeps_stale_heading :
    (reset (tick trivOps noEnv ctrlForwardRight initialState)).speed = 0 ∧
    (reset (tick trivOps noEnv ctrlForwardRight initialState)).steeringAngle = 0 ∧
    (reset (tick trivOps noEnv ctrlForwardRight initialState)).pos.x = 0 ∧
    (reset (tick trivOps noEnv ctrlForwardRight initialState)).pos.y = 0 ∧
    (reset (tick trivOps noEnv ctrlForwardRight initialState)).pos.z = 0 ∧
    (reset (tick trivOps noEnv ctrlForwardRight initialState)).controls = Controls.allFalse ∧
    (reset (tick trivOps noEnv ctrlForwardRight initialState)).rotation =
      (tick trivOps noEnv ctrlForwardRight initialState).rotation ∧
    (reset (tick trivOps noEnv ctrlForwardRight initialState)).rotation ≠ 0 := by
  refine ⟨rfl, rfl, rfl, rfl, rfl, rfl, rfl, ?_⟩
  show (updateBasicPhysics trivOps noEnv
    (updateSpeed (updateSteering { initialState with controls := ctrlForwardRight }))).rotation ≠ 0
  have hsp : (updateSpeed (updateSteering
      { initialState with controls := ctrlForwardRight })).speed = 0.5 := speedStep_F0
  have hsa : (updateSpeed (updateSteering
      { initialState with controls := ctrlForwardRight })).steeringAngle = 0.05 := steerStep_FR
  have hr0 : (updateSpeed (updateSteering
      { initialState with controls := ctrlForwardRight })).rotation = 0 := rfl
  have hrot := updateBasicPhysics_rotation trivOps noEnv
    (updateSpeed (updateSteering { initialState with controls := ctrlForwardRight }))
    (by rw [hsp]; norm_num)
  rw [hrot, hsa, hsp, hr0]
  rw [abs_of_pos (by norm_num : (0 : ℝ) < 0.05),
    Real.sign_of_pos (by norm_num : (0 : ℝ) < 0.05), mul_one, zero_add]
  have hsin : 0 < Real.sin (0.05 + 0.0001) :=
    Real.sin_pos_of_pos_of_lt_pi (by norm_num) (by linarith [Real.pi_gt_three])
  have hpos : 0 < (0.5 : ℝ) / (wheelBase / Real.sin (0.05 + 0.0001)) :=
    div_pos (by norm_num) (div_pos (by norm_num [wheelBase]) hsin)
  exact hpos.ne'

/-- C4 (counterexample): on a tick where the downward ray finds no ground
(pick is none) with the environment present, the follower does not hold the
previous elevation: from elevation 5 it snaps the elevation to
0 + wheelRadius = 0.7, because the query reports 0 instead of null. -/
theorem C4_counterexample :
    highState.pos.y = 5 ∧
    (adjustToTerrain trivOps envNoGround highState).pos.y ≠ highState.pos.y := by
  have hy : (adjustToTerrain trivOps envNoGround highState).pos.y =
      0 + wheelRadius := rfl
  refine ⟨rfl, ?_⟩
  rw [hy]
  norm_num [wheelRadius, highState, initialState]

/-- C4 (amended): the follower leaves elevation and orientation unchanged
for a tick only when the environment reference is absent; when the
environment is present and the ray finds no ground, the query returns 0
rather than none and the follower sets the elevation to wheelRadius. -/
theorem C4_no_ground_behavior :
    (∀ (ops : EngineOps) (inp : EngineInputs) (s : VehicleState),
      inp.envPresent = false → adjustToTerrain ops inp s = s) ∧
    (∀ (ops : EngineOps) (inp : EngineInputs) (s : VehicleState),
      inp.envPresent = true → inp.pick = none →
      (adjustToTerrain ops inp s).pos.y = wheelRadius) := by
  constructor
  · intro ops inp s he
    unfold adjustToTerrain
    rw [he]
    simp
  · intro ops inp s he hp
    rcases inp with ⟨ep, pick, wh⟩
    obtain rfl : ep = true := he
    obtain rfl : pick = (none : Option ℝ) := hp
    unfold adjustToTerrain getHeightAtPosition
    rcases wh with _ | ⟨h0, h1, h2, h3⟩
    · simp
    · rcases s with ⟨pos, mr, rq, rot, sp, sa, cs⟩
      rcases rq with _ | q <;> simp

/-- Witness for C4: environment absent leaves the state unchanged, and a
no-ground tick with environment present sets the elevation to
wheelRadius. -/
theorem C4_no_ground_behavior_witness :
    adjustToTerrain trivOps noEnv initialState = initialState ∧
    (adjustToTerrain trivOps envNoGround highState).pos.y = wheelRadius :=
  ⟨C4_no_ground_behavior.1 trivOps noEnv initialState rfl,
   C4_no_ground_behavior.2 trivOps envNoGround highState rfl rfl⟩

/-- C5 (counterexample): at speed 10 with stored steering angle 0.2, the
heading produced by the code differs from the heading produced by the
variant that the claim describes, which turns by the effective
(speed-scaled) steering angle. -/
theorem C5_counterexample :
    (updateBasicPhysics trivOps noEnv steeredState).rotation ≠
      (specKinematicStep trivOps noEnv steeredState).rotation := by
  have hsp : steeredState.speed = 10 := rfl
  have hne : steeredState.speed ≠ 0 := by rw [hsp]; norm_num
  have h1 := updateBasicPhysics_rotation trivOps noEnv steeredState hne
  have h2 := specKinematicStep_rotation trivOps noEnv steeredState hne
  have hsa : steeredState.steeringAngle = 0.2 := rfl
  have hr : steeredState.rotation = 0 := rfl
  have heff : effectiveSteeringAngle steeredState.speed steeredState.steeringAngle =
      0.1875 := by
    rw [hsp, hsa]
    unfold effectiveSteeringAngle speedFactor maxSpeed
    rw [abs_of_pos (by norm_num : (0 : ℝ) < 10),
      min_eq_right (by norm_num : (1 - 10 / 80 * 0.5 : ℝ) ≤ 1)]
    norm_num
  rw [h1, h2, heff, hsp, hsa, hr]
  rw [abs_of_pos (by norm_num : (0 : ℝ) < 0.2),
    abs_of_pos (by norm_num : (0 : ℝ) < 0.1875),
    Real.sign_of_pos (by norm_num : (0 : ℝ) < 0.2),
    Real.sign_of_pos (by norm_num : (0 : ℝ) < 0.1875),
    mul_one, mul_one, zero_add, zero_add]
  have hpi := Real.pi_gt_three
  have hlt : Real.sin (0.1875 + 0.0001) < Real.sin (0.2 + 0.0001) := by
    apply Real.strictMonoOn_sin (Set.mem_Icc.mpr ⟨by linarith, by linarith⟩)
      (Set.mem_Icc.mpr ⟨by linarith, by linarith⟩) (by norm_num)
  unfold wheelBase
  rw [div_div_eq_mul_div, div_div_eq_mul_div]
  intro hcontra
  linarith

/-- C5 (amended): for every tick with nonzero speed the integrator updates
heading and position by the bicycle-model formulas driven by the stored
steering angle (the speed-scaled effective angle only turns the wheel
visuals): R = wheelBase / sin(|steeringAngle| + 0.0001), the heading gains
speed / R * sign(steeringAngle), and the position then advances by
sin/cos of the new heading times speed; with stored steering angle 0 and
speed 10 the heading is unchanged and the position advances by
10 * sin(heading) and 10 * cos(heading). -/
theorem C5_kinematic_integrator :
    (∀ (ops : EngineOps) (inp : EngineInputs) (s : VehicleState), s.speed ≠ 0 →
      (updateBasicPhysics ops inp s).rotation =
        s.rotation + s.speed / (wheelBase / Real.sin (|s.steeringAngle| + 0.0001)) *
          Real.sign s.steeringAngle ∧
      (updateBasicPhysics ops inp s).pos.x =
        s.pos.x + Real.sin (s.rotation +
          s.speed / (wheelBase / Real.sin (|s.steeringAngle| + 0.0001)) *
          Real.sign s.steeringAngle) * s.speed ∧
      (updateBasicPhysics ops inp s).pos.z =
        s.pos.z + Real.cos (s.rotation +
          s.speed / (wheelBase / Real.sin (|s.steeringAngle| + 0.0001)) *
          Real.sign s.steeringAngle) * s.speed) ∧
    (∀ (ops : EngineOps) (inp : EngineInputs) (s : VehicleState),
      s.speed = 10 → s.steeringAngle = 0 →
      (updateBasicPhysics ops inp s).rotation = s.rotation ∧
      (updateBasicPhysics ops inp s).pos.x = s.pos.x + Real.sin s.rotation * 10 ∧
      (updateBasicPhysics ops inp s).pos.z = s.pos.z + Real.cos s.rotation * 10) := by
  constructor
  · intro ops inp s h
    exact ⟨updateBasicPhysics_rotation ops inp s h, updateBasicPhysics_posx ops inp s h,
      updateBasicPhysics_posz ops inp s h⟩
  · intro ops inp s h10 ha
    have h : s.speed ≠ 0 := by rw [h10]; norm_num
    have h1 := updateBasicPhysics_rotation ops inp s h
    have h2 := updateBasicPhysics_posx ops inp s h
    have h3 := updateBasicPhysics_posz ops inp s h
    rw [ha, Real.sign_zero, mul_zero, add_zero] at h1 h2 h3
    rw [h10] at h2 h3
    exact ⟨h1, h2, h3⟩

/-- Witness for C5: the heading formula at the steered example state, and
the straight-line scenario at speed 10 with centered steering. -/
theorem C5_kinematic_integrator_witness :
    ((updateBasicPhysics trivOps noEnv steeredState).rotation =
      steeredState.rotation + steeredState.speed /
        (wheelBase / Real.sin (|steeredState.steeringAngle| + 0.0001)) *
        Real.sign steeredState.steeringAngle) ∧
    (updateBasicPhysics trivOps noEnv straightState).rotation =
      straightState.rotation :=
  ⟨(C5_kinematic_integrator.1 trivOps noEnv steeredState
      (by norm_num [steeredState, initialState])).1,
   (C5_kinematic_integrator.2 trivOps noEnv straightState rfl rfl).1⟩

/-- C6: with brake held the speed moves toward 0 by exactly brakeForce,
clamped at the zero crossing, and the brake branch takes precedence over
forward and backward inputs held in the same tick. -/
theorem C6_brake_precedence (c : Controls) (v : ℝ) (hb : c.brake = true) :
    (0 < v → speedStep c v = max 0 (v - brakeForce)) ∧
    (v < 0 → speedStep c v = min 0 (v + brakeForce)) ∧
    (v = 0 → speedStep c v = 0) ∧
    speedStep c v = speedStep { c with forward := false, backward := false } v := by
  have hs : ∀ c' : Controls, c'.brake = true → speedStep c' v =
      if v > 0 then max 0 (v - brakeForce)
      else if v < 0 then min 0 (v + brakeForce) else v := by
    intro c' hb'
    unfold speedStep
    rw [hb']
    simp
  refine ⟨fun hv => ?_, fun hv => ?_, fun hv => ?_, ?_⟩
  · rw [hs c hb, if_pos hv]
  · rw [hs c hb, if_neg (by linarith), if_pos hv]
  · rw [hs c hb, if_neg (by simp [hv]), if_neg (by simp [hv])]
    exact hv
  · rw [hs c hb, hs { c with forward := false, backward := false } hb]

/-- Witness for C6 at a control vector holding forward and brake together,
from speed 2. -/
theorem C6_brake_precedence_witness :
    0 < (2 : ℝ) ∧
    speedStep ⟨true, true, false, false, true, false⟩ 2 = max 0 (2 - brakeForce) :=
  ⟨by norm_num,
   (C6_brake_precedence ⟨true, true, false, false, true, false⟩ 2 rfl).1 (by norm_num)⟩

/-- C7: with brake not held and forward held the new speed is
min(maxSpeed, speed + acceleration * (1 - min(0.7, |speed| / maxSpeed)));
one forward tick from speed 0 gives 0.5 and from speed 80 stays 80. -/
theorem C7_forward_rule :
    (∀ (c : Controls) (v : ℝ), c.brake = false → c.forward = true →
      speedStep c v = min maxSpeed (v + acceleration * (1 - min 0.7 (|v| / maxSpeed)))) ∧
    speedStep ctrlForward 0 = 0.5 ∧ speedStep ctrlForward 80 = 80 := by
  have hrule : ∀ (c : Controls) (v : ℝ), c.brake = false → c.forward = true →
      speedStep c v = min maxSpeed (v + acceleration * (1 - min 0.7 (|v| / maxSpeed))) := by
    intro c v hb hf
    unfold speedStep
    rw [hb, hf]
    simp
  refine ⟨hrule, ?_, ?_⟩
  · rw [hrule ctrlForward 0 rfl rfl, abs_zero, zero_div,
      min_eq_right (by norm_num : (0 : ℝ) ≤ 0.7),
      min_eq_right (by norm_num [maxSpeed, acceleration] :
        0 + acceleration * (1 - 0) ≤ maxSpeed)]
    norm_num [acceleration]
  · rw [hrule ctrlForward 80 rfl rfl, abs_of_pos (by norm_num : (0 : ℝ) < 80)]
    unfold maxSpeed acceleration
    rw [show (80 : ℝ) / 80 = 1 by norm_num,
      min_eq_left (by norm_num : (0.7 : ℝ) ≤ 1),
      min_eq_left (by norm_num : (80 : ℝ) ≤ 80 + 0.5 * (1 - 0.7))]

/-- Witness for C7 at forward-only controls and speed 5. -/
theorem C7_forward_rule_witness :
    speedStep ctrlForward 5 =
      min maxSpeed (5 + acceleration * (1 - min 0.7 (|(5 : ℝ)| / maxSpeed))) :=
  C7_forward_rule.1 ctrlForward 5 rfl rfl

/-- C9: a tick with all controls false updates the speed by the coasting
rule; coasting strictly decreases a positive speed and never makes it
negative; from maxSpeed the speed after n coasting ticks is
max 0 (maxSpeed - deceleration * n), exactly 0 after 400; and a state at
rest with centered steering keeps speed 0 and steering angle 0 under
further all-false ticks. -/
theorem C9_monotonic_decay :
    (∀ (ops : EngineOps) (inp : EngineInputs) (s : VehicleState),
      (tick ops inp Controls.allFalse s).speed = speedStep Controls.allFalse s.speed) ∧
    (∀ v : ℝ, 0 < v →
      speedStep Controls.allFalse v < v ∧ 0 ≤ speedStep Controls.allFalse v) ∧
    (∀ n : ℕ, (speedStep Controls.allFalse)^[n] maxSpeed =
      max 0 (maxSpeed - deceleration * n)) ∧
    (speedStep Controls.allFalse)^[400] maxSpeed = 0 ∧
    (∀ (ops : EngineOps) (inp : EngineInputs) (s : VehicleState),
      s.speed = 0 → s.steeringAngle = 0 →
      (tick ops inp Controls.allFalse s).speed = 0 ∧
      (tick ops inp Controls.allFalse s).steeringAngle = 0) := by
  refine ⟨fun ops inp s => tick_speed ops inp _ s, coast_strict_decrease,
    coast_iterate, ?_, ?_⟩
  · rw [coast_iterate 400]
    norm_num [maxSpeed, deceleration]
  · intro ops inp s h0 ha
    rw [tick_speed, tick_steeringAngle, h0, ha, speedStep_allFalse_zero,
      steerStep_allFalse_zero]
    exact ⟨rfl, rfl⟩

/-- Witness for C9: one coasting tick from spawn, strict decay at speed 50,
and the rest fixed point at spawn. -/
theorem C9_monotonic_decay_witness :
    (tick trivOps noEnv Controls.allFalse initialState).speed =
      speedStep Controls.allFalse initialState.speed ∧
    (speedStep Controls.allFalse 50 < 50 ∧ 0 ≤ speedStep Controls.allFalse 50) ∧
    (tick trivOps noEnv Controls.allFalse initialState).speed = 0 :=
  ⟨C9_monotonic_decay.1 trivOps noEnv initialState,
   C9_monotonic_decay.2.1 50 (by norm_num),
   (C9_monotonic_decay.2.2.2.2 trivOps noEnv initialState rfl rfl).1⟩

/-- C8 (counterexample): at the out-of-range speed 240 the code factor
min(1, 1 - |v| / maxSpeed * 0.5) is negative while the claimed factor
max(0, 1 - 0.5 * |v| / maxSpeed) is zero, so the two effective angles
differ. -/
theorem C8_counterexample :
    effectiveSteeringAngle 240 0.1 ≠ specEffectiveSteeringAngle 240 0.1 := by
  unfold effectiveSteeringAngle specEffectiveSteeringAngle speedFactor maxSpeed
  rw [abs_of_pos (by norm_num : (0 : ℝ) < 240),
    min_eq_right (by norm_num : (1 - 240 / 80 * 0.5 : ℝ) ≤ 1),
    max_eq_left (by norm_num : (1 - 0.5 * (240 / 80) : ℝ) ≤ 0)]
  norm_num

/-- C8 (amended): the effective steering angle is the stored angle scaled
by min(1, 1 - 0.5 * |speed| / maxSpeed), which agrees with the claimed
max(0, 1 - 0.5 * |speed| / maxSpeed) whenever |speed| ≤ 2 * maxSpeed, and
in particular at the speed of every reachable state. -/
theorem C8_effective_steering :
    (∀ v a : ℝ, |v| ≤ 2 * maxSpeed →
      effectiveSteeringAngle v a = specEffectiveSteeringAngle v a) ∧
    (∀ s : VehicleState, Reachable s →
      effectiveSteeringAngle s.speed s.steeringAngle =
        specEffectiveSteeringAngle s.speed s.steeringAngle) := by
  have key : ∀ v a : ℝ, |v| ≤ 2 * maxSpeed →
      effectiveSteeringAngle v a = specEffectiveSteeringAngle v a := by
    intro v a hv
    have h0 : (0 : ℝ) ≤ |v| := abs_nonneg v
    unfold maxSpeed at hv
    unfold effectiveSteeringAngle specEffectiveSteeringAngle speedFactor maxSpeed
    rw [min_eq_right (by linarith : (1 - |v| / 80 * 0.5 : ℝ) ≤ 1),
      max_eq_right (by linarith : (0 : ℝ) ≤ 1 - 0.5 * (|v| / 80))]
    ring
  refine ⟨key, fun s hs => ?_⟩
  have hb := reachable_speed_bounds s hs
  apply key
  rw [abs_le]
  unfold maxSpeed at hb ⊢
  exact ⟨by linarith [hb.1], by linarith [hb.2]⟩

/-- Witness for C8 at speed 10 and at the spawn state. -/
theorem C8_effective_steering_witness :
    effectiveSteeringAngle 10 0.2 = specEffectiveSteeringAngle 10 0.2 ∧
    effectiveSteeringAngle initialState.speed initialState.steeringAngle =
      specEffectiveSteeringAngle initialState.speed initialState.steeringAngle :=
  ⟨C8_effective_steering.1 10 0.2
    (by rw [abs_of_pos (by norm_num : (0 : ℝ) < 10)]; norm_num [maxSpeed]),
   C8_effective_steering.2 initialState Reachable.init⟩

/-- C10: the terrain height query is total: it returns 0 (never null) when
the downward ray misses, so whenever the environment is present the
follower takes the branch that sets the elevation to query + wheelRadius
and the hold-previous-elevation branch is unreachable. -/
theorem C10_height_query_total :
    getHeightAtPosition none = 0 ∧
    (∀ (ops : EngineOps) (inp : EngineInputs) (s : VehicleState),
      inp.envPresent = true →
      (adjustToTerrain ops inp s).pos.y = getHeightAtPosition inp.pick + wheelRadius) := by
  refine ⟨rfl, ?_⟩
  intro ops inp s he
  rcases inp with ⟨ep, pick, wh⟩
  obtain rfl : ep = true := he
  unfold adjustToTerrain
  rcases wh with _ | ⟨h0, h1, h2, h3⟩
  · simp
  · rcases s with ⟨pos, mr, rq, rot, sp, sa, cs⟩
    rcases rq with _ | q <;> simp

/-- Witness for C10 at a no-ground tick with the environment present. -/
theorem C10_height_query_total_witness :
    (adjustToTerrain trivOps envNoGround initialState).pos.y =
      getHeightAtPosition envNoGround.pick + wheelRadius :=
  C10_height_query_total.2 trivOps envNoGround initialState rfl

end DrivingGame
